import Mathlib

/-!
Shallow embedding of the openmyid repository's core (src/myid.py and the
relevant parts of src/openmyid.py), together with proofs of the frozen
claims about it.  Bytes are modelled as `Fin 256`; Python `bytes` values
become `List Byte`; fallible Python code returns `Except` / `Option`.
-/

namespace Myid

/-- A byte, as handled by Python `bytes` objects. -/
abbrev Byte := Fin 256

/-! ## Base64 (base64.standard_b64encode / standard_b64decode) -/

/-- The standard base64 alphabet used by `base64.standard_b64encode`. -/
def base64Alphabet : List Char :=
  ("ABCDEFGHIJKLMNOPQRSTUVWXYZabcdefghijklmnopqrstuvwxyz0123456789+/").toList

/-- Character encoding a six-bit group. -/
def encChar (n : Fin 64) : Char := base64Alphabet.getD n.val 'A'

/-- Inverse of `encChar`; `none` for characters outside the alphabet
(including the padding character). -/
def decChar (c : Char) : Option (Fin 64) :=
  let i := base64Alphabet.indexOf c
  if h : i < 64 then some ⟨i, h⟩ else none

/-- Standard base64 encoding of a byte string, with padding, as performed by
`base64.standard_b64encode`. -/
def b64encode : List Byte → List Char
  | [] => []
  | [a] =>
    [encChar ⟨a.val / 4, by have := a.isLt; omega⟩,
     encChar ⟨a.val % 4 * 16, by have := a.isLt; omega⟩, '=', '=']
  | [a, b] =>
    [encChar ⟨a.val / 4, by have := a.isLt; omega⟩,
     encChar ⟨a.val % 4 * 16 + b.val / 16, by have := a.isLt; have := b.isLt; omega⟩,
     encChar ⟨b.val % 16 * 4, by have := b.isLt; omega⟩, '=']
  | a :: b :: c :: rest =>
    encChar ⟨a.val / 4, by have := a.isLt; omega⟩ ::
    encChar ⟨a.val % 4 * 16 + b.val / 16, by have := a.isLt; have := b.isLt; omega⟩ ::
    encChar ⟨b.val % 16 * 4 + c.val / 64, by have := b.isLt; have := c.isLt; omega⟩ ::
    encChar ⟨c.val % 64, by have := c.isLt; omega⟩ :: b64encode rest

/-- Standard base64 decoding; `none` on any input `standard_b64decode`
rejects (bad length, stray padding, characters outside the alphabet). -/
def b64decode : List Char → Option (List Byte)
  | [] => some []
  | c1 :: c2 :: c3 :: c4 :: rest =>
    match decChar c1, decChar c2 with
    | some d1, some d2 =>
      if c3 = '=' then
        if c4 = '=' then
          match rest with
          | [] => some [⟨d1.val * 4 + d2.val / 16, by have := d1.isLt; have := d2.isLt; omega⟩]
          | _ => none
        else none
      else
        match decChar c3 with
        | some d3 =>
          if c4 = '=' then
            match rest with
            | [] =>
              some [⟨d1.val * 4 + d2.val / 16, by have := d1.isLt; have := d2.isLt; omega⟩,
                    ⟨d2.val % 16 * 16 + d3.val / 4, by have := d2.isLt; have := d3.isLt; omega⟩]
            | _ => none
          else
            match decChar c4, b64decode rest with
            | some d4, some tail =>
              some (⟨d1.val * 4 + d2.val / 16, by have := d1.isLt; have := d2.isLt; omega⟩ ::
                    ⟨d2.val % 16 * 16 + d3.val / 4, by have := d2.isLt; have := d3.isLt; omega⟩ ::
                    ⟨d3.val % 4 * 64 + d4.val, by have := d3.isLt; have := d4.isLt; omega⟩ :: tail)
            | _, _ => none
        | none => none
    | _, _ => none
  | _ => none

theorem decChar_encChar : ∀ n : Fin 64, decChar (encChar n) = some n := by decide

theorem encChar_ne_pad : ∀ n : Fin 64, encChar n ≠ '=' := by decide

/-- Base64 decoding is a left inverse of base64 encoding. -/
theorem b64decode_b64encode (bs : List Byte) : b64decode (b64encode bs) = some bs := by
  induction bs using b64encode.induct with
  | case1 => rfl
  | case2 a =>
    have ha := a.isLt
    simp only [b64encode, b64decode, decChar_encChar, if_pos rfl]
    simp [Fin.ext_iff]
    omega
  | case3 a b =>
    have ha := a.isLt; have hb := b.isLt
    simp only [b64encode, b64decode, decChar_encChar, encChar_ne_pad, if_pos rfl, if_neg]
    simp [Fin.ext_iff]
    constructor <;> omega
  | case4 a b c rest ih =>
    have ha := a.isLt; have hb := b.isLt; have hc := c.isLt
    simp only [b64encode, b64decode, decChar_encChar, encChar_ne_pad, if_neg, ih]
    simp [Fin.ext_iff]
    refine ⟨by omega, by omega, by omega⟩

/-! ## Hexadecimal rendering (bytes.hex and str.upper) -/

/-- A single lowercase hexadecimal digit, as produced by Python
`bytes.hex()`: digits 0-9 then letters a-f. -/
def hexDigitLower (n : Nat) : Char :=
  if n < 10 then Char.ofNat (48 + n) else Char.ofNat (87 + n)

/-- A single uppercase hexadecimal digit: digits 0-9 then letters A-F. -/
def hexDigitUpper (n : Nat) : Char :=
  if n < 10 then Char.ofNat (48 + n) else Char.ofNat (55 + n)

/-- Python `bytes.hex()`: lowercase hexadecimal rendering of a byte string. -/
def bytesToHexLower : List Byte → List Char
  | [] => []
  | b :: bs =>
    hexDigitLower (b.val / 16) :: hexDigitLower (b.val % 16) :: bytesToHexLower bs

/-- Modelled from the spec: a byte string rendered directly as uppercase
hexadecimal (the spec's description of the `kid` header). -/
def bytesToHexUpper : List Byte → List Char
  | [] => []
  | b :: bs =>
    hexDigitUpper (b.val / 16) :: hexDigitUpper (b.val % 16) :: bytesToHexUpper bs

theorem toUpper_hexDigit :
    ∀ n : Nat, n < 16 → (hexDigitLower n).toUpper = hexDigitUpper n := by
  decide

/-- Uppercasing the lowercase hex rendering (`.hex().upper()` in the source)
agrees with rendering directly in uppercase hexadecimal. -/
theorem map_toUpper_bytesToHexLower (bs : List Byte) :
    (bytesToHexLower bs).map Char.toUpper = bytesToHexUpper bs := by
  induction bs with
  | nil => rfl
  | cons b bs ih =>
    have hb := b.isLt
    simp only [bytesToHexLower, bytesToHexUpper, List.map,
      toUpper_hexDigit (b.val / 16) (by omega), toUpper_hexDigit (b.val % 16) (by omega), ih]

/-! ## Key management (Identity.__init__, export_key, from_exported_key)

The asymmetric-crypto primitives live in the external `cryptography` library,
not in this repository; they are modelled here by their documented contract
(an authenticated password-encrypted container), while everything the
repository's own code does (which wrapper it calls, with which encoding,
format and password, and how the results are combined and checked) is
translated directly from src/myid.py. -/

/-- An RSA public key as exposed by `RSAPrivateKey.public_key()`. -/
structure RSAPublicKey where
  n : Nat
  e : Nat
deriving DecidableEq

/-- RSA private key material (modulus, public exponent, private exponent). -/
structure RSAPrivateKey where
  n : Nat
  e : Nat
  d : Nat
deriving DecidableEq

/-- The `public_key()` method of an RSA private key. -/
def RSAPrivateKey.public_key (k : RSAPrivateKey) : RSAPublicKey := ⟨k.n, k.e⟩

/-- Python exceptions relevant to the embedded code paths: `ValueError`
(raised by the cryptography library on wrong password, corrupted input or
unparseable data), `AssertionError` (raised by a failed `assert`), and
`TypeError` (raised e.g. by subscripting `None`). -/
inductive PyException
  | valueError
  | assertionError
  | typeError
deriving DecidableEq

theorem except_ok_bind {e a b : Type} (x : a) (f : a → Except e b) :
    (Except.ok x : Except e a) >>= f = f x := rfl

theorem except_error_bind {e a b : Type} (err : e) (f : a → Except e b) :
    (Except.error err : Except e a) >>= f = Except.error err := rfl

theorem except_pure_eq_ok {e a : Type} (x : a) : (pure x : Except e a) = Except.ok x := rfl

/-- Private-key material as parsed by `load_pem_private_key`: either a
supported RSA key or some other key type. -/
inductive PrivateKeyMaterial
  | rsa (key : RSAPrivateKey)
  | otherKeyType (raw : List Byte)
deriving DecidableEq

/-- Serialization encodings offered by `serialization.Encoding`. -/
inductive Encoding
  | PEM
  | DER
deriving DecidableEq

/-- Private-key serialization formats offered by `serialization.PrivateFormat`. -/
inductive PrivateFormat
  | TraditionalOpenSSL
  | PKCS8
  | PKCS12
deriving DecidableEq

/-- A well-formed encrypted private-key container as produced by
`private_bytes(..., BestAvailableEncryption(password))`: it records the chosen
encoding and format, carries the serialized key material encrypted under
`password`, and a random `salt` making the ciphertext non-deterministic. -/
structure EncryptedPEMBlob where
  encoding : Encoding
  format : PrivateFormat
  payload : PrivateKeyMaterial
  password : List Byte
  salt : Nat
deriving DecidableEq

/-- Input to `load_pem_private_key`: either a well-formed encrypted container
or corrupted bytes that do not parse. -/
inductive PEMInput
  | wellFormed (blob : EncryptedPEMBlob)
  | corrupted (raw : List Byte)
deriving DecidableEq

/-- Modelled from the spec: the container family the spec asserts for the
exported key - "an industry-standard PEM/PKCS#8 or PKCS#12 container", read
with the spec's adjacent authenticated key-wrap requirement, i.e. either a
PEM-encoded PKCS#8 container or a PKCS#12 container. -/
def specClaimedContainer (blob : EncryptedPEMBlob) : Prop :=
  (blob.encoding = .PEM ∧ blob.format = .PKCS8) ∨ blob.format = .PKCS12

/-- Modelled from the spec: the cryptography library's
`private_bytes(encoding, format, BestAvailableEncryption(password))`.
`BestAvailableEncryption` rejects an empty password with `ValueError`;
otherwise the key material is wrapped in a password-encrypted container with
a random salt. -/
def private_bytes (key : RSAPrivateKey) (encoding : Encoding) (format : PrivateFormat)
    (password : List Byte) (salt : Nat) : Except PyException PEMInput :=
  if password = [] then .error .valueError
  else .ok (.wellFormed ⟨encoding, format, .rsa key, password, salt⟩)

/-- Modelled from the spec: the cryptography library's
`load_pem_private_key(data, password)`.  Corrupted input or a wrong password
raises `ValueError`; with the correct password the stored key material is
recovered. -/
def load_pem_private_key (data : PEMInput) (password : List Byte) :
    Except PyException PrivateKeyMaterial :=
  match data with
  | .corrupted _ => .error .valueError
  | .wellFormed blob =>
    if blob.password = password then .ok blob.payload else .error .valueError

/-- An identity at the core of a Digital ID; owns one RSA private key. -/
structure Identity where
  key : RSAPrivateKey
deriving DecidableEq

/-- `Identity.export_key`: the identity's PEM-encoded private key, encrypted
using `password` (source: `private_bytes` with `Encoding.PEM`,
`PrivateFormat.TraditionalOpenSSL` and `BestAvailableEncryption(password)`).
The library's random salt is passed explicitly. -/
def Identity.export_key (i : Identity) (password : List Byte) (salt : Nat) :
    Except PyException PEMInput :=
  private_bytes i.key .PEM .TraditionalOpenSSL password salt

/-- `Identity.from_exported_key`: loads the encrypted key, asserts it is an
RSA key (`assert isinstance(key, RSAPrivateKey)` raises `AssertionError`
otherwise), and wraps it in an `Identity`. -/
def Identity.from_exported_key (encrypted : PEMInput) (password : List Byte) :
    Except PyException Identity := do
  let key ← load_pem_private_key encrypted password
  match key with
  | .rsa k => return ⟨k⟩
  | .otherKeyType _ => .error .assertionError

/-- Export under a password followed by import under a (possibly different)
password, as composed by the round-trip claims. -/
def exportThenImport (i : Identity) (exportPassword importPassword : List Byte)
    (salt : Nat) : Except PyException Identity := do
  let blob ← i.export_key exportPassword salt
  Identity.from_exported_key blob importPassword

/-! ## Certificates and JWT assertion minting
(Identity.create_authorization_grant, Identity.create_client_authentication)

An X.509 certificate is identified with its DER encoding; the SHA-1 digest
and the X.509 serial-number field extraction are computed by the external
cryptography library, so they enter the embedding as explicit function
parameters (`sha1`, `serialNumber`), applied exactly where the source applies
them.  `jwt.encode`'s compact JOSE serialization is external as well; the
token is modelled structurally as its decoded header, payload and signing
key, which is what the claims quantify over ("decoded claims", "header"). -/

/-- An X.509 certificate, identified with its DER encoding. -/
structure Certificate where
  der : List Byte
deriving DecidableEq

/-- `certificate.fingerprint(hashes.SHA1())`: the SHA-1 digest of the
certificate's DER encoding, with the digest function passed explicitly. -/
def Certificate.fingerprint (c : Certificate) (sha1 : List Byte → List Byte) : List Byte :=
  sha1 c.der

theorem map_mk_der (certs : List Certificate) :
    (certs.map (fun c => c.der)).map Certificate.mk = certs := by
  induction certs with
  | nil => rfl
  | cons c cs ih => simp [ih]

/-- JOSE header of a minted assertion. -/
structure JWTHeader where
  alg : String
  kid : List Char
  x5c : List (List Char)
deriving DecidableEq

/-- Claims of a minted assertion.  `nbf` and `exp` are the Unix timestamps
computed from `int(time.time())`. -/
structure JWTPayload where
  jti : String
  sub : String
  nbf : Int
  exp : Int
  iss : String
  aud : String
deriving DecidableEq

/-- A signed JWT, modelled as its decoded parts plus the RS256 signing key. -/
structure JWT where
  header : JWTHeader
  payload : JWTPayload
  signingKey : RSAPrivateKey
deriving DecidableEq

/-- The `iss` value `f"https://ausidapp.gov.au/{certificate.serial_number}"`,
with the library's serial-number extraction passed explicitly. -/
def issuerUrl (serialNumber : List Byte → Int) (certificate : Certificate) : String :=
  ("https://ausidapp.gov.au/") ++ toString (serialNumber certificate.der)

/-- `Identity.create_authorization_grant(email, certificate)`.  The random
`jti` UUID and the two successive `int(time.time())` readings (the first
evaluated for `nbf`, the second for `exp`) are passed explicitly, as are the
library's SHA-1 and serial-number functions. -/
def Identity.create_authorization_grant (i : Identity) (email : String)
    (certificate : Certificate) (sha1 : List Byte → List Byte)
    (serialNumber : List Byte → Int) (jti : String) (time1 time2 : Int) : JWT :=
  { payload :=
      { jti := jti
        sub := email
        nbf := time1
        exp := time2 + 3600
        iss := issuerUrl serialNumber certificate
        aud := "https://myGovId.gov.au/connect/token" }
    header :=
      { alg := "RS256"
        kid := (bytesToHexLower (certificate.fingerprint sha1)).map Char.toUpper
        x5c := [b64encode certificate.der] }
    signingKey := i.key }

/-- `Identity.create_client_authentication(certificate)`: identical to the
authorization grant except that `sub` equals the certificate-derived issuer
URL instead of an email address. -/
def Identity.create_client_authentication (i : Identity) (certificate : Certificate)
    (sha1 : List Byte → List Byte) (serialNumber : List Byte → Int)
    (jti : String) (time1 time2 : Int) : JWT :=
  { payload :=
      { jti := jti
        sub := issuerUrl serialNumber certificate
        nbf := time1
        exp := time2 + 3600
        iss := issuerUrl serialNumber certificate
        aud := "https://myGovId.gov.au/connect/token" }
    header :=
      { alg := "RS256"
        kid := (bytesToHexLower (certificate.fingerprint sha1)).map Char.toUpper
        x5c := [b64encode certificate.der] }
    signingKey := i.key }

/-! ## Certificate signing request (Identity.create_csr) -/

/-- One `x509.NameAttribute`: an OID (in dotted decimal) and a value. -/
structure NameAttribute where
  oid : String
  value : String
deriving DecidableEq

/-- `NameOID.COMMON_NAME`. -/
def COMMON_NAME : String := "2.5.4.3"

/-- `NameOID.DN_QUALIFIER`. -/
def DN_QUALIFIER : String := "2.5.4.46"

/-- `NameOID.ORGANIZATION_NAME`. -/
def ORGANIZATION_NAME : String := "2.5.4.10"

/-- `NameOID.COUNTRY_NAME`. -/
def COUNTRY_NAME : String := "2.5.4.6"

/-- An `x509.UnrecognizedExtension`: an OID and raw ASN.1 value bytes. -/
structure UnrecognizedExtension where
  oid : String
  value : List Byte
deriving DecidableEq

/-- An extension entry added with `add_extension(extval, critical)`. -/
structure Extension where
  extval : UnrecognizedExtension
  critical : Bool
deriving DecidableEq

/-- Hash algorithms from `cryptography.hazmat.primitives.hashes`. -/
inductive HashAlgorithm
  | SHA1
  | SHA256
  | SHA512
deriving DecidableEq

/-- The content of a built and signed `x509.CertificateSigningRequest`:
subject attributes in order, extensions in order, the signature hash and the
signing key. -/
structure CertificateSigningRequestData where
  subject : List NameAttribute
  extensions : List Extension
  signatureHash : HashAlgorithm
  signingKey : RSAPrivateKey
deriving DecidableEq

/-- ASCII bytes of a string (all characters involved are 7-bit). -/
def asciiBytes (s : String) : List Byte :=
  s.toList.map (fun c => ⟨c.toNat % 256, Nat.mod_lt _ (by omega)⟩)

/-- The fixed extension value `b"\x16\x0emygovid.gov.au"` (an ASN.1 IA5String
tag, a length byte, and the fourteen ASCII characters). -/
def abnExtensionValue : List Byte :=
  (22 : Byte) :: (14 : Byte) :: asciiBytes ("mygovid.gov.au")

/-- The request body assembled by `Identity.create_csr` before DER encoding:
fixed subject CN, O and C, a per-call `dnQualifier` UUID, one non-critical
extension with OID 1.2.36.1.333.1, signed with SHA-512 by the identity's
key.  The random UUID is passed explicitly. -/
def Identity.csr_builder (i : Identity) (uuid : String) : CertificateSigningRequestData :=
  { subject :=
      [⟨COMMON_NAME, "poi id"⟩, ⟨DN_QUALIFIER, uuid⟩,
       ⟨ORGANIZATION_NAME, "mygovid.gov.au"⟩, ⟨COUNTRY_NAME, "AU"⟩]
    extensions := [⟨⟨"1.2.36.1.333.1", abnExtensionValue⟩, false⟩]
    signatureHash := .SHA512
    signingKey := i.key }

/-- The `CertificateSigningRequest` dataclass: `p10` is base64 DER. -/
structure CertificateSigningRequest where
  p10 : List Char
deriving DecidableEq

/-- `Identity.create_csr`: builds the request and returns it transport-encoded
as base64 of its DER encoding (`public_bytes(Encoding.DER)` is the external
library's DER serializer, passed explicitly). -/
def Identity.create_csr (i : Identity) (uuid : String)
    (derEncode : CertificateSigningRequestData → List Byte) : CertificateSigningRequest :=
  ⟨b64encode (derEncode (i.csr_builder uuid))⟩

/-! ## PKCS#7 chain decoding (CertificateResponse.decode_certificate_chain)

The DER grammar of PKCS#7 SignedData is implemented by the external
cryptography library.  It is modelled from the spec ("a binary envelope
format that can carry a certificate chain"): an injective envelope encoding —
a fixed two-byte header, a count, then each certificate's DER bytes
length-prefixed, in order — together with its exact executable inverse
standing for `pkcs7.load_der_pkcs7_certificates`.  The repository's own
method body (base64-decode, then parse, no reordering, no trust validation)
is translated from src/myid.py, and the error classification
(`MalformedChain` / `EmptyChain`) from the spec. -/

/-- Little-endian base-128 varint encoding of a natural number (length
prefix used by the modelled envelope). -/
def encNat (n : Nat) : List Byte :=
  if h : n < 128 then [⟨n, by omega⟩]
  else ⟨128 + n % 128, by omega⟩ :: encNat (n / 128)
termination_by n
decreasing_by exact Nat.div_lt_self (by omega) (by omega)

/-- Inverse of `encNat`: reads one varint, returns it with the remaining
bytes. -/
def decNat : List Byte → Option (Nat × List Byte)
  | [] => none
  | b :: rest =>
    if b.val < 128 then some (b.val, rest)
    else
      match decNat rest with
      | none => none
      | some (m, r) => some (b.val - 128 + 128 * m, r)

theorem decNat_encNat (n : Nat) (rest : List Byte) :
    decNat (encNat n ++ rest) = some (n, rest) := by
  induction n using Nat.strong_induction_on with
  | _ n ih =>
    rw [encNat]
    by_cases h : n < 128
    · simp [h, decNat]
    · have hdiv : n / 128 < n := Nat.div_lt_self (by omega) (by omega)
      simp only [h, dite_false, List.cons_append, decNat]
      have h128 : ¬ (128 + n % 128 < 128) := by omega
      simp only [h128, if_false, ih (n / 128) hdiv]
      have heq : 128 + n % 128 - 128 + 128 * (n / 128) = n := by omega
      simp [heq]
      omega

theorem take_append_self (a b : List α) : (a ++ b).take a.length = a := by
  induction a with
  | nil => rfl
  | cons x xs ih => simp [ih]

theorem drop_append_self (a b : List α) : (a ++ b).drop a.length = b := by
  induction a with
  | nil => rfl
  | cons x xs ih => simp [ih]

/-- Reads `count` length-prefixed certificate byte strings, in order. -/
def parseCertList : Nat → List Byte → Option (List (List Byte))
  | 0, [] => some []
  | 0, _ :: _ => none
  | count + 1, bs =>
    match decNat bs with
    | none => none
    | some (len, rest) =>
      if len ≤ rest.length then
        match parseCertList count (rest.drop len) with
        | none => none
        | some ders => some (rest.take len :: ders)
      else none

/-- Fixed header bytes marking the modelled SignedData envelope. -/
def pkcs7Magic : List Byte := [(48 : Byte), (128 : Byte)]

/-- The envelope encoding: header, certificate count, then each
certificate's DER bytes length-prefixed, preserving order. -/
def encodeSignedData (certs : List (List Byte)) : List Byte :=
  pkcs7Magic ++ encNat certs.length ++
    certs.foldr (fun der acc => encNat der.length ++ (der ++ acc)) []

/-- Modelled from the spec: `pkcs7.load_der_pkcs7_certificates` — parses the
SignedData envelope and extracts the `certificates` field in DER-parse
order; `none` when the bytes do not parse as the envelope. -/
def load_der_pkcs7_certificates (bs : List Byte) : Option (List (List Byte)) :=
  if bs.take 2 = pkcs7Magic then
    match decNat (bs.drop 2) with
    | none => none
    | some (count, rest) => parseCertList count rest
  else none

theorem parseCertList_encode (ders : List (List Byte)) :
    parseCertList ders.length
      (ders.foldr (fun der acc => encNat der.length ++ (der ++ acc)) []) = some ders := by
  induction ders with
  | nil => rfl
  | cons d ds ih =>
    simp only [List.foldr, List.length_cons, parseCertList, decNat_encNat]
    have hlen : d.length ≤
        (d ++ ds.foldr (fun der acc => encNat der.length ++ (der ++ acc)) []).length := by
      simp
    rw [if_pos hlen, drop_append_self, ih, take_append_self]

theorem load_der_encodeSignedData (certs : List (List Byte)) :
    load_der_pkcs7_certificates (encodeSignedData certs) = some certs := by
  unfold load_der_pkcs7_certificates encodeSignedData
  have htake : (pkcs7Magic ++ (encNat certs.length ++
      certs.foldr (fun der acc => encNat der.length ++ (der ++ acc)) [])).take 2 = pkcs7Magic := by
    have : (2 : Nat) = pkcs7Magic.length := rfl
    rw [this, take_append_self]
  have hdrop : (pkcs7Magic ++ (encNat certs.length ++
      certs.foldr (fun der acc => encNat der.length ++ (der ++ acc)) [])).drop 2 =
      encNat certs.length ++ certs.foldr (fun der acc => encNat der.length ++ (der ++ acc)) [] := by
    have : (2 : Nat) = pkcs7Magic.length := rfl
    rw [this, drop_append_self]
  rw [List.append_assoc, htake, if_pos rfl, hdrop, decNat_encNat]
  exact parseCertList_encode certs

/-- Error taxonomy of the chain decoder, from the spec. -/
inductive ChainError
  | malformedChain
  | emptyChain
deriving DecidableEq

/-- The `CertificateResponse` model: `p7` carries the base64 PKCS#7 chain. -/
structure CertificateResponse where
  id : Int
  p7 : List Char
  p10 : List Char
  credentialToken : String
  links : List (List (String × String))

/-- `CertificateResponse.decode_certificate_chain`: base64-decodes `p7` and
extracts the certificate chain with `load_der_pkcs7_certificates`, in input
order, with no reordering and no trust validation.  A base64 or parse
failure is `MalformedChain`; an envelope with zero certificates is
`EmptyChain` (error classes from the spec). -/
def CertificateResponse.decode_certificate_chain (r : CertificateResponse) :
    Except ChainError (List Certificate) :=
  match b64decode r.p7 with
  | none => .error .malformedChain
  | some bs =>
    match load_der_pkcs7_certificates bs with
    | none => .error .malformedChain
    | some [] => .error .emptyChain
    | some ders => .ok (ders.map Certificate.mk)

/-! ## Orchestrator certificate phase
(InitialScreen.action_create_new_identity, src/openmyid.py lines 537-548) -/

/-- The `CertificateSigningTask` response model (pydantic BaseModel). -/
structure CertificateSigningTask where
  id : Int
  status : String
  eta : Int
  links : List (List (String × String))

/-- An opaque transport failure raised by the network collaborator. -/
structure TransportError where
  detail : String
deriving DecidableEq

/-- Observable actions of the orchestrator's certificate phase, in order:
submitting the CSR, suspending (`asyncio.sleep`, duration in seconds), and
fetching the signed certificate by task id. -/
inductive OrchestratorAction
  | initiateCertificateSigningTask (p10 : List Char)
  | sleep (seconds : Rat)
  | getSignedCertificate (taskId : Int)
deriving DecidableEq

/-- Whether an action is the certificate fetch. -/
def OrchestratorAction.isFetch : OrchestratorAction → Bool
  | .getSignedCertificate _ => true
  | _ => false

/-- The certificate phase of `action_create_new_identity`, as the ordered
list of actions it performs together with the propagated fetch outcome:
submit the CSR, `await asyncio.sleep(certificate_signing_task.eta * 1.5)`,
then `await client.get_signed_certificate(certificate_signing_task.id)`
exactly once — a failing fetch raises out of the coroutine, it is never
reattempted.  `task` is the submit response and `fetchResult` the outcome
the network collaborator supplies for the single fetch. -/
def certificatePhase (csr : CertificateSigningRequest) (task : CertificateSigningTask)
    (fetchResult : Except TransportError CertificateResponse) :
    List OrchestratorAction × Except TransportError CertificateResponse :=
  ([.initiateCertificateSigningTask csr.p10,
    .sleep ((task.eta : Rat) * (3 / 2)),
    .getSignedCertificate task.id],
   fetchResult)

/-! ## Identity store (IdentityStore, src/openmyid.py) -/

/-- The `identity` table: rows mapping an email address (primary key) to the
stored encrypted key blob. -/
structure IdentityStore where
  rows : List (String × PEMInput)

/-- `IdentityStore.get_emails`: the stored email addresses, in row order. -/
def IdentityStore.get_emails (s : IdentityStore) : List String :=
  s.rows.map (fun r => r.1)

/-- The `SELECT p12 FROM identity WHERE email = ?` lookup followed by
`fetchone()`: the first matching row's blob, or `None`. -/
def IdentityStore.fetchone_p12 (s : IdentityStore) (email : String) : Option PEMInput :=
  (s.rows.find? (fun r => r.1 == email)).map (fun r => r.2)

/-- Python subscripting of a value that may be `None`: `None[0]` raises
`TypeError`. -/
def pySubscript (row : Option α) : Except PyException α :=
  match row with
  | none => .error .typeError
  | some v => .ok v

/-- `IdentityStore.get_identity(email, password)`: subscripts the
`fetchone()` result without a `None` guard, then deserializes the blob with
the password. -/
def IdentityStore.get_identity (s : IdentityStore) (email : String) (password : String) :
    Except PyException Identity := do
  let p12 ← pySubscript (s.fetchone_p12 email)
  Identity.from_exported_key p12 (asciiBytes password)

end Myid

/-! ## The claims -/

/-- C1: for every generated Identity and every non-empty password, importing
the encrypted export with the same password yields an Identity whose key's
public key equals the original's public key. -/
theorem claim_C1_export_import_roundtrip (i : Myid.Identity) (password : List Myid.Byte)
    (salt : Nat) (h : password ≠ []) :
    ∃ i2 : Myid.Identity, Myid.exportThenImport i password password salt = .ok i2 ∧
      i2.key.public_key = i.key.public_key := by
  refine ⟨⟨i.key⟩, ?_, rfl⟩
  simp [Myid.exportThenImport, Myid.Identity.export_key, Myid.private_bytes, h,
    Myid.Identity.from_exported_key, Myid.load_pem_private_key,
    Myid.except_ok_bind, Myid.except_pure_eq_ok]

/-- Witness for C1 at a concrete identity, password and salt. -/
theorem claim_C1_witness :
    ([(97 : Myid.Byte)] ≠ ([] : List Myid.Byte)) ∧
      ∃ i2 : Myid.Identity,
        Myid.exportThenImport ⟨⟨3233, 17, 2753⟩⟩ [(97 : Myid.Byte)] [(97 : Myid.Byte)] 0 =
          .ok i2 ∧
        i2.key.public_key = (Myid.Identity.mk ⟨3233, 17, 2753⟩).key.public_key :=
  ⟨by decide,
   claim_C1_export_import_roundtrip ⟨⟨3233, 17, 2753⟩⟩ [(97 : Myid.Byte)] 0 (by decide)⟩

/-- C2: both minting operations produce a JWT whose header kid equals the
certificate's SHA-1 fingerprint rendered as uppercase hexadecimal, and whose
header x5c is a one-element list whose sole entry base64-decodes to exactly
the certificate's DER encoding. -/
theorem claim_C2_assertion_headers (i : Myid.Identity) (email : String)
    (cert : Myid.Certificate) (sha1 : List Myid.Byte → List Myid.Byte)
    (serialNumber : List Myid.Byte → Int) (jti : String) (t1 t2 : Int) :
    let grant := i.create_authorization_grant email cert sha1 serialNumber jti t1 t2
    let auth := i.create_client_authentication cert sha1 serialNumber jti t1 t2
    grant.header.kid = Myid.bytesToHexUpper (sha1 cert.der) ∧
    auth.header.kid = Myid.bytesToHexUpper (sha1 cert.der) ∧
    grant.header.x5c = [Myid.b64encode cert.der] ∧
    auth.header.x5c = [Myid.b64encode cert.der] ∧
    grant.header.x5c.length = 1 ∧
    auth.header.x5c.length = 1 ∧
    Myid.b64decode (Myid.b64encode cert.der) = some cert.der := by
  refine ⟨?_, ?_, rfl, rfl, rfl, rfl, Myid.b64decode_b64encode cert.der⟩ <;>
    exact Myid.map_toUpper_bytesToHexLower (sha1 cert.der)

/-- C3 counterexample: if the clock ticks between the two successive
`int(time.time())` calls (the first computing nbf, the second computing
exp), the minted assertion has exp - nbf = 3601, not 3600. -/
theorem claim_C3_counterexample :
    ¬ (((Myid.Identity.mk ⟨3233, 17, 2753⟩).create_authorization_grant
          ("user@domain.com") ⟨[]⟩ (fun bs => bs) (fun _ => 0) ("j") 0 1).payload.exp -
        ((Myid.Identity.mk ⟨3233, 17, 2753⟩).create_authorization_grant
          ("user@domain.com") ⟨[]⟩ (fun bs => bs) (fun _ => 0) ("j") 0 1).payload.nbf
        = 3600) := by
  decide

/-- C3 amended: for every minted assertion, exp - nbf equals 3600 plus the
difference between the second and the first `int(time.time())` reading, so
it is exactly 3600 precisely when the two readings coincide. -/
theorem claim_C3_expiry_amended (i : Myid.Identity) (email : String)
    (cert : Myid.Certificate) (sha1 : List Myid.Byte → List Myid.Byte)
    (serialNumber : List Myid.Byte → Int) (jti : String) (t1 t2 : Int) :
    let grant := i.create_authorization_grant email cert sha1 serialNumber jti t1 t2
    let auth := i.create_client_authentication cert sha1 serialNumber jti t1 t2
    grant.payload.exp - grant.payload.nbf = 3600 + (t2 - t1) ∧
    auth.payload.exp - auth.payload.nbf = 3600 + (t2 - t1) := by
  constructor
  · show t2 + 3600 - t1 = 3600 + (t2 - t1)
    omega
  · show t2 + 3600 - t1 = 3600 + (t2 - t1)
    omega

/-- C4: decoding a response whose p7 field carries the base64 SignedData
envelope returns the certificates in input DER-parse order, byte for byte,
so the first supplied (leaf) certificate comes first; no reordering and no
trust validation. -/
theorem claim_C4_chain_order (certs : List Myid.Certificate) (n : Int)
    (p10 : List Char) (tok : String) (links : List (List (String × String)))
    (h : certs ≠ []) :
    Myid.CertificateResponse.decode_certificate_chain
      ⟨n, Myid.b64encode (Myid.encodeSignedData (certs.map (fun c => c.der))), p10, tok, links⟩
      = .ok certs := by
  have hbytes := Myid.b64decode_b64encode (Myid.encodeSignedData (certs.map (fun c => c.der)))
  have hload := Myid.load_der_encodeSignedData (certs.map (fun c => c.der))
  simp only [Myid.CertificateResponse.decode_certificate_chain, hbytes, hload]
  cases certs with
  | nil => exact absurd rfl h
  | cons c cs =>
    simp only [List.map_cons]
    exact congrArg Except.ok (Myid.map_mk_der (c :: cs))

/-- Witness for C4 at a concrete one-certificate chain. -/
theorem claim_C4_witness :
    ([(⟨[(1 : Myid.Byte)]⟩ : Myid.Certificate)] ≠ []) ∧
    Myid.CertificateResponse.decode_certificate_chain
      ⟨0,
       Myid.b64encode (Myid.encodeSignedData
         ([(⟨[(1 : Myid.Byte)]⟩ : Myid.Certificate)].map (fun c => c.der))),
       [], "", []⟩
      = .ok [⟨[(1 : Myid.Byte)]⟩] :=
  ⟨by decide, claim_C4_chain_order [⟨[(1 : Myid.Byte)]⟩] 0 [] "" [] (by decide)⟩

/-- C5: create_csr always encodes the same fixed subject common name,
organization and country, the same non-critical extension OID and value,
signs with SHA-512 using the identity's private key, and only the DN
qualifier differs across two calls for the same identity. -/
theorem claim_C5_csr_fixed_fields (i : Myid.Identity) (u1 u2 : String)
    (derEncode : Myid.CertificateSigningRequestData → List Myid.Byte) :
    let r1 := i.csr_builder u1
    let r2 := i.csr_builder u2
    r1.subject = [⟨Myid.COMMON_NAME, "poi id"⟩, ⟨Myid.DN_QUALIFIER, u1⟩,
        ⟨Myid.ORGANIZATION_NAME, "mygovid.gov.au"⟩, ⟨Myid.COUNTRY_NAME, "AU"⟩] ∧
    r1.extensions = [⟨⟨"1.2.36.1.333.1", Myid.abnExtensionValue⟩, false⟩] ∧
    r1.signatureHash = .SHA512 ∧
    r1.signingKey = i.key ∧
    r2 = { r1 with subject := r1.subject.set 1 ⟨Myid.DN_QUALIFIER, u2⟩ } ∧
    i.create_csr u1 derEncode = ⟨Myid.b64encode (derEncode r1)⟩ :=
  ⟨rfl, rfl, rfl, rfl, rfl, rfl⟩

/-- C6: decode_certificate_chain fails with MalformedChain whenever base64
decoding fails or the decoded bytes do not parse as SignedData, and with the
distinct EmptyChain error whenever the structure parses but contains zero
certificates. -/
theorem claim_C6_chain_errors (r : Myid.CertificateResponse) :
    (Myid.b64decode r.p7 = none →
      r.decode_certificate_chain = .error .malformedChain) ∧
    (∀ bs, Myid.b64decode r.p7 = some bs →
      Myid.load_der_pkcs7_certificates bs = none →
      r.decode_certificate_chain = .error .malformedChain) ∧
    (∀ bs, Myid.b64decode r.p7 = some bs →
      Myid.load_der_pkcs7_certificates bs = some [] →
      r.decode_certificate_chain = .error .emptyChain) ∧
    Myid.ChainError.malformedChain ≠ Myid.ChainError.emptyChain := by
  refine ⟨?_, ?_, ?_, by decide⟩
  · intro h
    simp [Myid.CertificateResponse.decode_certificate_chain, h]
  · intro bs h1 h2
    simp [Myid.CertificateResponse.decode_certificate_chain, h1, h2]
  · intro bs h1 h2
    simp [Myid.CertificateResponse.decode_certificate_chain, h1, h2]

/-- Witness for C6: a response rejected by base64, one rejected by the
SignedData parser, and one whose envelope holds zero certificates. -/
theorem claim_C6_witness :
    (Myid.CertificateResponse.decode_certificate_chain ⟨0, ['!', '!', '!', '!'], [], "", []⟩ =
      .error .malformedChain) ∧
    (Myid.CertificateResponse.decode_certificate_chain ⟨0, [], [], "", []⟩ =
      .error .malformedChain) ∧
    (Myid.CertificateResponse.decode_certificate_chain
        ⟨0, Myid.b64encode (Myid.encodeSignedData []), [], "", []⟩ =
      .error .emptyChain) :=
  ⟨(claim_C6_chain_errors _).1 (by decide),
   (claim_C6_chain_errors _).2.1 [] (by decide) (by decide),
   (claim_C6_chain_errors _).2.2.1 (Myid.encodeSignedData [])
     (Myid.b64decode_b64encode (Myid.encodeSignedData []))
     (Myid.load_der_encodeSignedData [])⟩

/-- C7 counterexample: at a concrete identity, password and salt,
export_key produces a container whose format is TraditionalOpenSSL, which is
not in the container family the claim asserts (PEM-encoded PKCS#8 or
PKCS#12). -/
theorem claim_C7_counterexample :
    (Myid.Identity.mk ⟨3233, 17, 2753⟩).export_key [(98 : Myid.Byte)] 5 =
      .ok (.wellFormed
        ⟨.PEM, .TraditionalOpenSSL, .rsa ⟨3233, 17, 2753⟩, [(98 : Myid.Byte)], 5⟩) ∧
    ¬ Myid.specClaimedContainer
        ⟨.PEM, .TraditionalOpenSSL, .rsa ⟨3233, 17, 2753⟩, [(98 : Myid.Byte)], 5⟩ := by
  constructor
  · simp [Myid.Identity.export_key, Myid.private_bytes]
  · simp [Myid.specClaimedContainer]

/-- C7 amended: for every identity and non-empty password, export_key
produces a password-encrypted serialized private key, but in a PEM container
using the traditional OpenSSL key format (legacy PEM encryption), which is
neither a PEM-encoded PKCS#8 container nor a PKCS#12 container. -/
theorem claim_C7_export_format (i : Myid.Identity) (password : List Myid.Byte)
    (salt : Nat) (h : password ≠ []) :
    ∃ blob : Myid.EncryptedPEMBlob,
      i.export_key password salt = .ok (.wellFormed blob) ∧
      blob.encoding = .PEM ∧
      blob.format = .TraditionalOpenSSL ∧
      blob.password = password ∧
      blob.payload = .rsa i.key ∧
      ¬ Myid.specClaimedContainer blob := by
  refine ⟨⟨.PEM, .TraditionalOpenSSL, .rsa i.key, password, salt⟩, ?_, rfl, rfl, rfl, rfl, ?_⟩
  · simp [Myid.Identity.export_key, Myid.private_bytes, h]
  · simp [Myid.specClaimedContainer]

/-- Witness for C7 at a concrete identity, password and salt. -/
theorem claim_C7_witness :
    ([(98 : Myid.Byte)] ≠ ([] : List Myid.Byte)) ∧
      ∃ blob : Myid.EncryptedPEMBlob,
        (Myid.Identity.mk ⟨3233, 17, 2753⟩).export_key [(98 : Myid.Byte)] 5 =
          .ok (.wellFormed blob) ∧
        blob.encoding = .PEM ∧
        blob.format = .TraditionalOpenSSL ∧
        blob.password = [(98 : Myid.Byte)] ∧
        blob.payload = .rsa ⟨3233, 17, 2753⟩ ∧
        ¬ Myid.specClaimedContainer blob :=
  ⟨by decide, claim_C7_export_format ⟨⟨3233, 17, 2753⟩⟩ [(98 : Myid.Byte)] 5 (by decide)⟩

/-- C8: import fails with ValueError (the spec's DecryptionFailed) on a
wrong password or a corrupted blob, and with the distinct AssertionError
(the spec's MalformedKeyMaterial) when the blob decrypts and parses but does
not contain an RSA key. -/
theorem claim_C8_import_errors :
    (∀ (i : Myid.Identity) (p p' : List Myid.Byte) (salt : Nat),
      p ≠ [] → p' ≠ p →
      Myid.exportThenImport i p p' salt = .error .valueError) ∧
    (∀ raw p : List Myid.Byte,
      Myid.Identity.from_exported_key (.corrupted raw) p = .error .valueError) ∧
    (∀ (blob : Myid.EncryptedPEMBlob) (p raw : List Myid.Byte),
      blob.password = p → blob.payload = .otherKeyType raw →
      Myid.Identity.from_exported_key (.wellFormed blob) p = .error .assertionError) ∧
    Myid.PyException.valueError ≠ Myid.PyException.assertionError := by
  refine ⟨?_, ?_, ?_, by decide⟩
  · intro i p p' salt hp hne
    have hne' : ¬ (p = p') := fun hh => hne hh.symm
    simp [Myid.exportThenImport, Myid.Identity.export_key, Myid.private_bytes, hp,
      Myid.Identity.from_exported_key, Myid.load_pem_private_key, hne',
      Myid.except_ok_bind, Myid.except_error_bind]
  · intro raw p
    rfl
  · intro blob p raw hpw hpayload
    obtain ⟨enc, fmt, payload, pw, salt⟩ := blob
    have hpw2 : pw = p := hpw
    have hpay2 : payload = .otherKeyType raw := hpayload
    subst hpw2 hpay2
    simp [Myid.Identity.from_exported_key, Myid.load_pem_private_key,
      Myid.except_ok_bind, Myid.except_error_bind]

/-- Witness for C8: concrete wrong-password, corrupted-blob and non-RSA
instances. -/
theorem claim_C8_witness :
    (Myid.exportThenImport ⟨⟨3233, 17, 2753⟩⟩ [(97 : Myid.Byte)] [(98 : Myid.Byte)] 0 =
      .error .valueError) ∧
    (Myid.Identity.from_exported_key (.corrupted [(0 : Myid.Byte)]) [(97 : Myid.Byte)] =
      .error .valueError) ∧
    (Myid.Identity.from_exported_key
        (.wellFormed ⟨.PEM, .TraditionalOpenSSL, .otherKeyType [], [(97 : Myid.Byte)], 0⟩)
        [(97 : Myid.Byte)] =
      .error .assertionError) :=
  ⟨claim_C8_import_errors.1 ⟨⟨3233, 17, 2753⟩⟩ [(97 : Myid.Byte)] [(98 : Myid.Byte)] 0
      (by decide) (by decide),
   claim_C8_import_errors.2.1 [(0 : Myid.Byte)] [(97 : Myid.Byte)],
   claim_C8_import_errors.2.2.1 ⟨.PEM, .TraditionalOpenSSL, .otherKeyType [], [(97 : Myid.Byte)], 0⟩
      [(97 : Myid.Byte)] [] rfl rfl⟩

/-- C9: after receiving the certificate-signing task, the orchestrator
sleeps exactly eta * 1.5 seconds immediately before fetching the issued
certificate, performs the fetch exactly once whatever its outcome, and
propagates a failing fetch without any retry. -/
theorem claim_C9_eta_wait_single_fetch (csr : Myid.CertificateSigningRequest)
    (task : Myid.CertificateSigningTask)
    (fetchResult : Except Myid.TransportError Myid.CertificateResponse) :
    let actions := (Myid.certificatePhase csr task fetchResult).1
    actions[1]? = some (.sleep ((task.eta : Rat) * (3 / 2))) ∧
    actions[2]? = some (.getSignedCertificate task.id) ∧
    (actions.filter (fun a => a.isFetch)).length = 1 ∧
    (Myid.certificatePhase csr task fetchResult).2 = fetchResult :=
  ⟨rfl, rfl, rfl, rfl⟩

/-- C10: for every email address not present in the identity store,
get_identity fails with TypeError, coming from subscripting the None result
of fetchone, rather than returning a value or a distinguishable not-found
error. -/
theorem claim_C10_get_identity_missing_email (s : Myid.IdentityStore)
    (email password : String) (h : email ∉ s.get_emails) :
    s.get_identity email password = .error .typeError := by
  have hfind : s.rows.find? (fun r => r.1 == email) = none := by
    rw [List.find?_eq_none]
    intro r hr hbeq
    exact h (List.mem_map.mpr ⟨r, hr, by simpa using hbeq⟩)
  simp [Myid.IdentityStore.get_identity, Myid.IdentityStore.fetchone_p12, hfind,
    Myid.pySubscript, Myid.except_error_bind]

/-- Witness for C10 at an empty store. -/
theorem claim_C10_witness :
    (("missing@example.com") ∉ (Myid.IdentityStore.mk []).get_emails) ∧
    (Myid.IdentityStore.mk []).get_identity ("missing@example.com") ("pw") =
      .error .typeError :=
  ⟨by simp [Myid.IdentityStore.get_emails],
   claim_C10_get_identity_missing_email ⟨[]⟩ ("missing@example.com") ("pw")
     (by simp [Myid.IdentityStore.get_emails])⟩
